import Mathlib

/-!
Verification of the aws-iam-ueba detection pipeline.

This file embeds the core of the repository in Lean 4:
* `app/services/feature_engineer.py`  — per-account feature aggregation,
* `app/services/anomaly_engine.py`    — rule engine and combined detection,
* `app/services/risk_scoring.py`      — risk scoring, levels, recommendations,
* `iam-mvp/detector.py`               — the MVP variant (namespace `Mvp`).

Machine reals (Python floats) are embedded as `ℚ`: every constant appearing
in the scoring code is a small decimal, and all arithmetic performed on the
scores (sums of rule points, `min`, comparison against thresholds) is exact
on these values, so the rational embedding computes the same answers.
Timestamps are embedded as `ℕ` (seconds since the UTC epoch); only their
ordering and their hour-of-day matter to the code.
-/

/-- `app/models/schemas.py` `CloudTrailEvent`. `event_time` is seconds since
the UTC epoch. `request_parameters` is omitted: no code under verification
reads it. `error_code = none` embeds Python `None`. -/
structure CloudTrailEvent where
  event_id : String
  event_time : ℕ
  event_name : String
  event_source : String
  aws_region : String
  source_ip : String
  user_agent : String
  user_arn : String
  user_type : String
  account_id : String
  mfa_used : Bool
  policy_name : Option String
  error_code : Option String
  error_message : Option String
  is_high_risk : Bool
  deriving Repr, DecidableEq

/-- Python truthiness of an optional string: `None` and `""` are falsy. -/
def truthyStr : Option String → Bool
  | none => false
  | some s => !(s == "")

/-- `feature_engineer.py` `UserFeatures`. -/
structure UserFeatures where
  user_arn : String
  total_events : ℕ := 0
  unique_event_names : ℕ := 0
  unique_ips : ℕ := 0
  high_risk_event_count : ℕ := 0
  failed_event_count : ℕ := 0
  off_hours_event_count : ℕ := 0
  consecutive_failures : ℕ := 0
  mfa_missing_high_risk : ℕ := 0
  admin_action_count : ℕ := 0
  unique_regions : ℕ := 0
  event_name_entropy : ℚ := 0
  ip_list : List String := []
  event_counts : List (String × ℕ) := []
  first_seen : Option ℕ := none
  last_seen : Option ℕ := none
  deriving Repr, DecidableEq

/-- `feature_engineer.py` `ADMIN_EVENTS`. -/
def ADMIN_EVENTS : List String :=
  ["AttachUserPolicy", "AttachRolePolicy", "AttachGroupPolicy",
   "PutUserPolicy", "PutRolePolicy", "PutGroupPolicy",
   "CreateRole", "CreateUser", "CreateAccessKey",
   "AssumeRole", "GetSessionToken"]

/-- Hour of day of an epoch-seconds timestamp. -/
def hourOf (t : ℕ) : ℕ := t / 3600 % 24

/-- `feature_engineer.py` `_is_off_hours`: UTC hour ≥ 22 or < 6. -/
def _is_off_hours (t : ℕ) : Bool := decide (22 ≤ hourOf t ∨ hourOf t < 6)

/-- One step of the consecutive-failure scan: state is
(max streak so far, current streak). -/
def failStep (acc : ℕ × ℕ) (failed : Bool) : ℕ × ℕ :=
  if failed then (max acc.1 (acc.2 + 1), acc.2 + 1) else (acc.1, 0)

/-- The event-time ordering used by `sorted(events, key=lambda e: e.event_time)`. -/
def byEventTime (a b : CloudTrailEvent) : Prop := a.event_time ≤ b.event_time

instance : DecidableRel byEventTime := fun a b => by
  unfold byEventTime; infer_instance

instance : IsTotal CloudTrailEvent byEventTime :=
  ⟨fun a b => Nat.le_total a.event_time b.event_time⟩

instance : IsTrans CloudTrailEvent byEventTime :=
  ⟨fun _ _ _ hab hbc => Nat.le_trans hab hbc⟩

/-- `feature_engineer.py` `_max_consecutive_failures`: sort the events by
`event_time` (Python `sorted` is stable; `List.insertionSort` is the stable
sort of Mathlib) and scan once, incrementing the streak on a truthy
`error_code` and resetting it otherwise. -/
def _max_consecutive_failures (events : List CloudTrailEvent) : ℕ :=
  ((List.insertionSort byEventTime events).foldl
    (fun acc e => failStep acc (truthyStr e.error_code)) (0, 0)).1

/-- Python `collections.Counter` over a list of names: an association list in
first-appearance order. -/
def counterOf (names : List String) : List (String × ℕ) :=
  names.foldl (fun acc n =>
    if acc.any (fun p => p.1 == n)
    then acc.map (fun p => if p.1 == n then (p.1, p.2 + 1) else p)
    else acc ++ [(n, 1)]) []

/-- `feature_engineer.py` `_entropy`, with `log2` abstracted: the source
computes Shannon entropy with floating-point `math.log2`, which has no exact
rational embedding. No claim depends on the entropy value. -/
def _entropy (log2 : ℚ → ℚ) (counts : List (String × ℕ)) : ℚ :=
  let total : ℕ := (counts.map (·.2)).sum
  if total = 0 then 0
  else -(((counts.map (·.2)).filter (fun c => 0 < c)).map
    (fun c => ((c : ℚ) / total) * log2 ((c : ℚ) / total))).sum

/-- `defaultdict(list)` grouping by `user_arn`: keys in first-touch order,
each partition in input order. -/
def partitionByUser (events : List CloudTrailEvent) :
    List (String × List CloudTrailEvent) :=
  events.foldl (fun acc e =>
    if acc.any (fun p => p.1 == e.user_arn)
    then acc.map (fun p => if p.1 == e.user_arn then (p.1, p.2 ++ [e]) else p)
    else acc ++ [(e.user_arn, [e])]) []

/-- The per-partition body of `feature_engineer.py` `extract_user_features`
(lines 95–131): aggregates one account's events into `UserFeatures`.
`{e.source_ip for e in user_evts if e.source_ip}` keeps only truthy
(non-empty) strings; the set's cardinality is the length of the deduplicated
list. `log2` abstracts floating-point `math.log2` (see `_entropy`). -/
def buildUserFeatures (log2 : ℚ → ℚ) (arn : String)
    (user_evts : List CloudTrailEvent) : UserFeatures :=
  let event_name_counter := counterOf (user_evts.map (·.event_name))
  let ip_set := ((user_evts.filter (fun e => e.source_ip ≠ "")).map
    (·.source_ip)).dedup
  let region_set := ((user_evts.filter (fun e => e.aws_region ≠ "")).map
    (·.aws_region)).dedup
  let times := user_evts.map (·.event_time)
  { user_arn := arn
    total_events := user_evts.length
    unique_event_names := event_name_counter.length
    unique_ips := ip_set.length
    high_risk_event_count := (user_evts.filter (fun e => e.is_high_risk)).length
    failed_event_count :=
      (user_evts.filter (fun e => truthyStr e.error_code)).length
    off_hours_event_count :=
      (user_evts.filter (fun e => _is_off_hours e.event_time)).length
    consecutive_failures := _max_consecutive_failures user_evts
    mfa_missing_high_risk :=
      (user_evts.filter (fun e => e.is_high_risk && !e.mfa_used)).length
    admin_action_count :=
      (user_evts.filter (fun e => ADMIN_EVENTS.contains e.event_name)).length
    unique_regions := region_set.length
    event_name_entropy := _entropy log2 event_name_counter
    ip_list := ip_set
    event_counts := event_name_counter
    first_seen := if times.isEmpty then none else times.min?
    last_seen := if times.isEmpty then none else times.max? }

/-- `feature_engineer.py` `extract_user_features`: partition by account, then
aggregate each partition. -/
def extract_user_features (log2 : ℚ → ℚ) (events : List CloudTrailEvent) :
    List UserFeatures :=
  (partitionByUser events).map (fun p => buildUserFeatures log2 p.1 p.2)

/-- `anomaly_engine.py` `DetectionResult`. `details` holds the six integer
counters the code records. -/
structure DetectionResult where
  user_arn : String
  is_anomaly : Bool
  detection_method : String
  triggered_rules : List String := []
  ml_anomaly_score : ℚ := 0
  details : List (String × ℕ) := []
  deriving Repr, DecidableEq

/-- `anomaly_engine.py` `RuleEngine.evaluate`: the nine security rules,
appended to `triggered` in source order. The denominator of every ratio rule
is `max(uf.total_events, 1)`. -/
def RuleEngine.evaluate (uf : UserFeatures) : List String :=
  let total : ℕ := max uf.total_events 1
  (if (uf.off_hours_event_count : ℚ) / (total : ℚ) > 0.30
    then ["R01_OFF_HOURS_ACCESS"] else []) ++
  (if (uf.high_risk_event_count : ℚ) / (total : ℚ) > 0.20
    then ["R02_HIGH_RISK_RATIO"] else []) ++
  (if uf.mfa_missing_high_risk ≥ 1 then ["R03_HIGH_RISK_NO_MFA"] else []) ++
  (if uf.unique_ips ≥ 3 then ["R04_MULTIPLE_SOURCE_IPS"] else []) ++
  (if (uf.failed_event_count : ℚ) / (total : ℚ) > 0.40
    then ["R05_HIGH_FAILURE_RATE"] else []) ++
  (if uf.consecutive_failures ≥ 5 then ["R06_CONSECUTIVE_FAILURES"] else []) ++
  (if uf.admin_action_count ≥ 5 then ["R07_EXCESSIVE_ADMIN_ACTIONS"] else []) ++
  (if uf.unique_regions ≥ 2 then ["R08_MULTI_REGION_ACTIVITY"] else []) ++
  (if uf.total_events > 100 then ["R09_EVENT_BURST"] else [])

/-- `anomaly_engine.py` `MLAnomalyDetector.fit_predict`, degraded branches
(lines 113–121): when scikit-learn is unavailable or `len(features_list) < 2`
the detector returns `{uf.user_arn: 0.0 for uf in features_list}`. The
scikit-learn branch is an external model and is represented in `detectWith`
by an arbitrary score map. -/
def MLAnomalyDetector.fit_predict_degraded (features_list : List UserFeatures) :
    List (String × ℚ) :=
  features_list.map (fun uf => (uf.user_arn, 0))

/-- Python `dict.get(k, d)` on a `str → float` association list. -/
def alistGetD (l : List (String × ℚ)) (k : String) (d : ℚ) : ℚ :=
  match l.find? (fun p => p.1 == k) with
  | some p => p.2
  | none => d

/-- The per-account body of `AnomalyEngine.detect` (lines 176–212):
rule evaluation, the ML flag `ml_score <= ml_threshold`, the method
combination and the result record. -/
def AnomalyEngine.detectAccount (ml_threshold : ℚ) (ml_score : ℚ)
    (uf : UserFeatures) : DetectionResult :=
  let triggered_rules := RuleEngine.evaluate uf
  let rule_anomaly : Bool := decide (0 < triggered_rules.length)
  let ml_anomaly : Bool := decide (ml_score ≤ ml_threshold)
  let is_anomaly : Bool := rule_anomaly || ml_anomaly
  let method : String :=
    if rule_anomaly && ml_anomaly then "both"
    else if rule_anomaly then "rule"
    else if ml_anomaly then "ml"
    else "none"
  { user_arn := uf.user_arn
    is_anomaly := is_anomaly
    detection_method := method
    triggered_rules := triggered_rules
    ml_anomaly_score := ml_score
    details :=
      [("total_events", uf.total_events),
       ("high_risk_events", uf.high_risk_event_count),
       ("failed_events", uf.failed_event_count),
       ("off_hours_events", uf.off_hours_event_count),
       ("unique_ips", uf.unique_ips),
       ("mfa_missing_high_risk", uf.mfa_missing_high_risk)] }

/-- `AnomalyEngine.detect` over an arbitrary ML score map `ml_scores`
(the composite of the `fit_predict` dictionary and `dict.get(arn, 0.0)`).
Quantifying theorems over `ml_scores` covers every output the external
model can produce. -/
def AnomalyEngine.detectWith (ml_scores : String → ℚ) (ml_threshold : ℚ)
    (features_list : List UserFeatures) : List DetectionResult :=
  features_list.map
    (fun uf => AnomalyEngine.detectAccount ml_threshold (ml_scores uf.user_arn) uf)

/-- `AnomalyEngine.detect` on a degraded batch (fewer than two accounts, or
scikit-learn unavailable): the score map is `fit_predict_degraded`, looked up
with default `0.0` as in `ml_scores.get(uf.user_arn, 0.0)`. -/
def AnomalyEngine.detect_degraded (ml_threshold : ℚ)
    (features_list : List UserFeatures) : List DetectionResult :=
  AnomalyEngine.detectWith
    (fun arn => alistGetD (MLAnomalyDetector.fit_predict_degraded features_list) arn 0)
    ml_threshold features_list

/-- `risk_scoring.py` `RiskScore`. -/
structure RiskScore where
  user_arn : String
  score : ℚ
  level : String
  score_breakdown : List (String × ℚ)
  recommendations : List String
  deriving Repr, DecidableEq

/-- `risk_scoring.py` `RULE_BASE_SCORES`. -/
def RULE_BASE_SCORES : List (String × ℚ) :=
  [("R01_OFF_HOURS_ACCESS", 10),
   ("R02_HIGH_RISK_RATIO", 15),
   ("R03_HIGH_RISK_NO_MFA", 20),
   ("R04_MULTIPLE_SOURCE_IPS", 10),
   ("R05_HIGH_FAILURE_RATE", 15),
   ("R06_CONSECUTIVE_FAILURES", 20),
   ("R07_EXCESSIVE_ADMIN_ACTIONS", 18),
   ("R08_MULTI_REGION_ACTIVITY", 8),
   ("R09_EVENT_BURST", 10)]

/-- `risk_scoring.py` `ML_ANOMALY_BONUS`. -/
def ML_ANOMALY_BONUS : ℚ := 15

/-- `risk_scoring.py` `MAX_SCORE`. -/
def MAX_SCORE : ℚ := 100

/-- `risk_scoring.py` `_level`. -/
def _level (score : ℚ) : String :=
  if score ≥ 80 then "CRITICAL"
  else if score ≥ 60 then "HIGH"
  else if score ≥ 40 then "MEDIUM"
  else "LOW"

/-- Severity order of the four levels, for stating monotonicity. -/
def levelRank (level : String) : ℕ :=
  if level = "CRITICAL" then 3
  else if level = "HIGH" then 2
  else if level = "MEDIUM" then 1
  else 0

/-- The six fixed recommendation sentences of `_recommendations`, plus the
ML, urgent and fallback sentences, as named constants. -/
def REC_MFA : String := "즉시 해당 계정에 MFA(다단계 인증) 적용 필요"

def REC_LOCK : String := "연속 인증 실패 감지 — 계정 잠금 또는 IP 차단 검토"

def REC_POLP : String := "최소 권한 원칙(PoLP) 재검토 — 불필요한 관리자 정책 제거"

def REC_IP : String := "비정상 IP 접근 확인 — VPC 엔드포인트 또는 IP 허용목록 적용 검토"

def REC_NIGHT : String := "야간 접속 패턴 확인 — 비업무시간 접근 제한 정책 검토"

def REC_SCP : String := "AWS SCP(서비스 제어 정책)로 허용 리전 제한 검토"

def REC_ML : String := "ML 모델이 통계적 이상 패턴 감지 — 로그 상세 수동 검토 권고"

def REC_URGENT : String := "[긴급] 해당 IAM 계정/Role 즉시 비활성화 후 조사 시작"

def REC_NONE : String := "현재 탐지된 이상 없음 — 정기 모니터링 유지"

/-- `risk_scoring.py` `_recommendations` (lines 60–92): sequential appends in
source order (R03, R06, R07, R04, R01, R08), then the ML sentence, then the
urgent directive inserted at position 0 for CRITICAL, then the fallback if
the list is still empty. `uf` is passed but unused, as in the source. -/
def _recommendations (result : DetectionResult) (uf : UserFeatures)
    (level : String) : List String :=
  let recs : List String := []
  let recs := if result.triggered_rules.contains "R03_HIGH_RISK_NO_MFA"
    then recs ++ [REC_MFA] else recs
  let recs := if result.triggered_rules.contains "R06_CONSECUTIVE_FAILURES"
    then recs ++ [REC_LOCK] else recs
  let recs := if result.triggered_rules.contains "R07_EXCESSIVE_ADMIN_ACTIONS"
    then recs ++ [REC_POLP] else recs
  let recs := if result.triggered_rules.contains "R04_MULTIPLE_SOURCE_IPS"
    then recs ++ [REC_IP] else recs
  let recs := if result.triggered_rules.contains "R01_OFF_HOURS_ACCESS"
    then recs ++ [REC_NIGHT] else recs
  let recs := if result.triggered_rules.contains "R08_MULTI_REGION_ACTIVITY"
    then recs ++ [REC_SCP] else recs
  let recs := if result.detection_method = "ml" ∨ result.detection_method = "both"
    then recs ++ [REC_ML] else recs
  let recs := if level = "CRITICAL" then REC_URGENT :: recs else recs
  if recs = [] then [REC_NONE] else recs

/-- `RULE_BASE_SCORES.get(rule, 5.0)`. -/
def rulePts (rule : String) : ℚ := alistGetD RULE_BASE_SCORES rule 5

/-- Python dict assignment `d[k] = v`: update in place if the key exists
(keeping its position), else append. -/
def dictInsert (l : List (String × ℚ)) (k : String) (v : ℚ) :
    List (String × ℚ) :=
  match l with
  | [] => [(k, v)]
  | (k', v') :: rest =>
    if k' = k then (k, v) :: rest else (k', v') :: dictInsert rest k v

/-- Python dict membership lookup `d.get(k)` (for stating breakdown facts). -/
def alistLookup (l : List (String × ℚ)) (k : String) : Option ℚ :=
  (l.find? (fun p => p.1 == k)).map (·.2)

/-- One iteration of the rule loop in `calculate_risk_score`:
`pts = RULE_BASE_SCORES.get(rule, 5.0); breakdown[rule] = pts; total += pts`. -/
def ruleStep (acc : List (String × ℚ) × ℚ) (rule : String) :
    List (String × ℚ) × ℚ :=
  (dictInsert acc.1 rule (rulePts rule), acc.2 + rulePts rule)

/-- Python `round(q, 2)` embedded on `ℚ`. Python rounds half to even while
`round` on `ℚ` rounds half up; the two differ only when `q * 100` is half an
integer, which no value reachable in this code is (every score is a sum of
integer constants). -/
def round2 (q : ℚ) : ℚ := ((round (q * 100) : ℤ) : ℚ) / 100

/-- `risk_scoring.py` `calculate_risk_score`. -/
def calculate_risk_score (result : DetectionResult) (uf : UserFeatures) :
    RiskScore :=
  let bd := result.triggered_rules.foldl ruleStep ([], 0)
  let bd := if result.detection_method = "ml" ∨ result.detection_method = "both"
    then (dictInsert bd.1 "ML_ANOMALY" ML_ANOMALY_BONUS, bd.2 + ML_ANOMALY_BONUS)
    else bd
  let consec_penalty : ℚ := min ((uf.consecutive_failures : ℚ) * 1) 10
  let bd := if 0 < consec_penalty
    then (dictInsert bd.1 "CONSECUTIVE_FAIL_PENALTY" consec_penalty,
          bd.2 + consec_penalty)
    else bd
  let final_score := min bd.2 MAX_SCORE
  let level := _level final_score
  { user_arn := result.user_arn
    score := round2 final_score
    level := level
    score_breakdown := bd.1
    recommendations := _recommendations result uf level }

/-- `risk_scoring.py` `rank_users`: sort by score descending (Python `sorted`
with a reversed key is stable; `insertionSort` with `b.score ≤ a.score` is the
corresponding stable sort). -/
def rank_users (risk_scores : List RiskScore) : List RiskScore :=
  List.insertionSort (fun a b => b.score ≤ a.score) risk_scores

namespace Mvp

/-- `iam-mvp/detector.py` event dictionaries: the keys the detector reads.
`event_time` is seconds since the UTC epoch (only `.hour` is used). -/
structure Event where
  user_arn : String
  source_ip : String
  region : String
  event_time : ℕ
  event_name : String
  error_code : Option String
  is_high_risk : Bool
  mfa_used : Bool
  deriving Repr, DecidableEq

/-- `iam-mvp/detector.py` `UserFeatures`. -/
structure UserFeatures where
  user_arn : String
  total_events : ℕ := 0
  off_hours_events : ℕ := 0
  high_risk_events : ℕ := 0
  mfa_missing_high_risk : ℕ := 0
  unique_ips : ℕ := 0
  failed_events : ℕ := 0
  consecutive_failures : ℕ := 0
  admin_action_count : ℕ := 0
  unique_regions : ℕ := 0
  deriving Repr, DecidableEq

/-- `iam-mvp/detector.py` `ADMIN_EVENTS`. -/
def ADMIN_EVENTS : List String :=
  ["CreateUser", "DeleteUser", "AttachUserPolicy", "DetachUserPolicy",
   "PutUserPolicy", "CreateRole", "AttachRolePolicy", "CreateAccessKey"]

/-- The consecutive-failure scan of `extract_features` (lines 56–64): unlike
the SaaS `_max_consecutive_failures`, the events are scanned in input order,
with no sort. -/
def maxConsecFailures (evts : List Event) : ℕ :=
  (evts.foldl (fun acc e => failStep acc (truthyStr e.error_code)) (0, 0)).1

/-- `defaultdict` bucketing of `extract_features`: per account, the event
list in input order (the `ips` and `regions` sets are recovered from it). -/
def bucketsByUser (events : List Event) : List (String × List Event) :=
  events.foldl (fun acc e =>
    if acc.any (fun p => p.1 == e.user_arn)
    then acc.map (fun p => if p.1 == e.user_arn then (p.1, p.2 ++ [e]) else p)
    else acc ++ [(e.user_arn, [e])]) []

/-- The per-bucket body of `iam-mvp/detector.py` `extract_features`. The `ips`
and `regions` sets collect every value, empty strings included (no filter in
this variant). -/
def buildFeatures (arn : String) (evts : List Event) : UserFeatures :=
  { user_arn := arn
    total_events := evts.length
    off_hours_events := (evts.filter
      (fun e => decide (22 ≤ hourOf e.event_time ∨ hourOf e.event_time < 6))).length
    high_risk_events := (evts.filter (fun e => e.is_high_risk)).length
    mfa_missing_high_risk :=
      (evts.filter (fun e => e.is_high_risk && !e.mfa_used)).length
    unique_ips := ((evts.map (·.source_ip)).dedup).length
    failed_events := (evts.filter (fun e => truthyStr e.error_code)).length
    consecutive_failures := maxConsecFailures evts
    admin_action_count :=
      (evts.filter (fun e => ADMIN_EVENTS.contains e.event_name)).length
    unique_regions := ((evts.map (·.region)).dedup).length }

/-- `iam-mvp/detector.py` `extract_features`. -/
def extract_features (events : List Event) : List UserFeatures :=
  (bucketsByUser events).map (fun p => buildFeatures p.1 p.2)

/-- `iam-mvp/detector.py` `RULES`: id, base points, predicate. Every ratio
predicate divides by `max(uf.total_events, 1)`. -/
def RULES : List (String × ℚ × (UserFeatures → Bool)) :=
  [("R01_OFF_HOURS", 10, fun uf =>
      decide ((uf.off_hours_events : ℚ) / (max uf.total_events 1 : ℕ) > 0.30)),
   ("R02_HIGH_RISK_RATIO", 15, fun uf =>
      decide ((uf.high_risk_events : ℚ) / (max uf.total_events 1 : ℕ) > 0.20)),
   ("R03_NO_MFA", 20, fun uf => decide (uf.mfa_missing_high_risk ≥ 1)),
   ("R04_MULTI_IP", 10, fun uf => decide (uf.unique_ips ≥ 3)),
   ("R05_HIGH_FAIL_RATE", 15, fun uf =>
      decide ((uf.failed_events : ℚ) / (max uf.total_events 1 : ℕ) > 0.40)),
   ("R06_CONSEC_FAIL", 20, fun uf => decide (uf.consecutive_failures ≥ 5)),
   ("R07_ADMIN_ABUSE", 18, fun uf => decide (uf.admin_action_count ≥ 5)),
   ("R08_MULTI_REGION", 8, fun uf => decide (uf.unique_regions ≥ 2)),
   ("R09_EVENT_BURST", 10, fun uf => decide (uf.total_events > 100))]

/-- `[rid for rid, _, check in RULES if check(uf)]` in `detect` (line 183). -/
def triggeredRules (uf : UserFeatures) : List String :=
  (RULES.filter (fun r => r.2.2 uf)).map (·.1)

end Mvp

/-- The sentence each rule id maps to in `_recommendations`, in the order the
source checks them: R03, R06, R07, R04, R01, R08. This is not the catalog
order R01..R09, and R02, R05, R09 map to no sentence. -/
def RECS_BY_RULE : List (String × String) :=
  [("R03_HIGH_RISK_NO_MFA", REC_MFA),
   ("R06_CONSECUTIVE_FAILURES", REC_LOCK),
   ("R07_EXCESSIVE_ADMIN_ACTIONS", REC_POLP),
   ("R04_MULTIPLE_SOURCE_IPS", REC_IP),
   ("R01_OFF_HOURS_ACCESS", REC_NIGHT),
   ("R08_MULTI_REGION_ACTIVITY", REC_SCP)]

/-- Declarative reconstruction of the recommendation list, for comparison
with the imperative `_recommendations`: one sentence per triggered rule that
has one, in `RECS_BY_RULE` order, then the ML sentence, then the urgent
directive prepended for CRITICAL, then the fallback when otherwise empty. -/
def expectedRecommendations (result : DetectionResult) (level : String) :
    List String :=
  let ruleRecs :=
    (RECS_BY_RULE.filter (fun p => result.triggered_rules.contains p.1)).map (·.2)
  let core := ruleRecs ++
    (if result.detection_method = "ml" ∨ result.detection_method = "both"
     then [REC_ML] else [])
  let full := if level = "CRITICAL" then REC_URGENT :: core else core
  if full = [] then [REC_NONE] else full

/-- An account with no events and no signals. -/
def ufSolo : UserFeatures := { user_arn := "arn:aws:iam::1:user/solo" }

/-- The C5 scenario account: 4 events, all high-privilege, none with MFA,
1 source IP. -/
def uf5 : UserFeatures :=
  { user_arn := "arn:aws:iam::1:user/five", total_events := 4,
    high_risk_event_count := 4, mfa_missing_high_risk := 4, unique_ips := 1 }

/-- The detection result the pipeline produces for `uf5` when the ML flag is
not set: exactly the rules of `RuleEngine.evaluate uf5`. -/
def res5 : DetectionResult :=
  { user_arn := "arn:aws:iam::1:user/five", is_anomaly := true,
    detection_method := "rule", triggered_rules := RuleEngine.evaluate uf5 }

/-- A result whose triggered rules are R01 and R03, for the recommendation
order. -/
def res6 : DetectionResult :=
  { user_arn := "arn:aws:iam::1:user/six", is_anomaly := true,
    detection_method := "rule",
    triggered_rules := ["R01_OFF_HOURS_ACCESS", "R03_HIGH_RISK_NO_MFA"] }

/-- A result triggering only R02, a rule with no recommendation sentence. -/
def res7 : DetectionResult :=
  { user_arn := "arn:aws:iam::1:user/seven", is_anomaly := true,
    detection_method := "rule", triggered_rules := ["R02_HIGH_RISK_RATIO"] }

/-- An account whose only signal is a consecutive-failure run of 3. -/
def uf8 : UserFeatures :=
  { user_arn := "arn:aws:iam::1:user/eight", consecutive_failures := 3 }

/-- A result carrying a rule id outside the catalog. -/
def res9 : DetectionResult :=
  { user_arn := "arn:aws:iam::1:user/nine", is_anomaly := true,
    detection_method := "rule", triggered_rules := ["R99_UNKNOWN"] }

/-- A failed event (truthy `error_code`). -/
def evF : CloudTrailEvent :=
  { event_id := "f", event_time := 1000, event_name := "GetUser",
    event_source := "iam.amazonaws.com", aws_region := "us-east-1",
    source_ip := "198.51.100.7", user_agent := "aws-cli", user_arn := "arn:u",
    user_type := "IAMUser", account_id := "1", mfa_used := false,
    policy_name := none, error_code := some "AccessDenied",
    error_message := none, is_high_risk := false }

/-- A successful event at the same timestamp as `evF`. -/
def evO : CloudTrailEvent := { evF with event_id := "o", error_code := none }

/-- An event whose source IP is empty but whose region is real. -/
def evEI : CloudTrailEvent :=
  { evF with
    event_id := "ei"
    source_ip := ""
    error_code := none }

/-- An event whose region is empty but whose source IP is real. -/
def evER : CloudTrailEvent :=
  { evF with
    event_id := "er"
    aws_region := ""
    error_code := none }

/-- A failed event at a later, distinct timestamp. -/
def evF2 : CloudTrailEvent := { evF with event_id := "f2", event_time := 2000 }

-- membership in a conditional singleton segment of `RuleEngine.evaluate`
lemma mem_ite_singleton {c : Prop} [Decidable c] (x y : String) :
    (x ∈ if c then [y] else []) ↔ c ∧ x = y := by
  split_ifs with h <;> simp [h]

lemma find?_eq_none_of_not_mem (l : List (String × ℚ)) (k : String)
    (h : k ∉ l.map Prod.fst) : l.find? (fun p => p.1 == k) = none := by
  induction l with
  | nil => rfl
  | cons p rest ih =>
    simp only [List.map_cons, List.mem_cons, not_or] at h
    have hne : (p.1 == k) = false :=
      beq_eq_false_iff_ne.mpr (fun hh => h.1 hh.symm)
    simp [List.find?, hne, ih h.2]

lemma alistGetD_default_of_not_mem (l : List (String × ℚ)) (k : String)
    (d : ℚ) (h : k ∉ l.map Prod.fst) : alistGetD l k d = d := by
  unfold alistGetD
  rw [find?_eq_none_of_not_mem l k h]

lemma rulePts_shape (r : String) : ∃ m : ℕ, rulePts r = (m : ℚ) := by
  by_cases h : r ∈ RULE_BASE_SCORES.map Prod.fst
  · simp only [RULE_BASE_SCORES, List.map_cons, List.map_nil, List.mem_cons,
      List.not_mem_nil, or_false] at h
    rcases h with h | h | h | h | h | h | h | h | h <;> subst h
    · exact ⟨10, by decide⟩
    · exact ⟨15, by decide⟩
    · exact ⟨20, by decide⟩
    · exact ⟨10, by decide⟩
    · exact ⟨15, by decide⟩
    · exact ⟨20, by decide⟩
    · exact ⟨18, by decide⟩
    · exact ⟨8, by decide⟩
    · exact ⟨10, by decide⟩
  · exact ⟨5, by
      show alistGetD RULE_BASE_SCORES r 5 = ((5 : ℕ) : ℚ)
      rw [alistGetD_default_of_not_mem _ _ _ h]; norm_num⟩

lemma rulePts_nonneg (r : String) : 0 ≤ rulePts r := by
  obtain ⟨m, hm⟩ := rulePts_shape r
  rw [hm]; positivity

lemma ruleSum_shape (rules : List String) :
    ∃ n : ℕ, (rules.map rulePts).sum = (n : ℚ) := by
  induction rules with
  | nil => exact ⟨0, by simp⟩
  | cons r rest ih =>
    obtain ⟨m, hm⟩ := rulePts_shape r
    obtain ⟨n, hn⟩ := ih
    exact ⟨m + n, by simp [hm, hn]⟩

lemma foldl_ruleStep_total (rules : List String) (bd : List (String × ℚ))
    (t : ℚ) :
    (List.foldl ruleStep (bd, t) rules).2 = t + (rules.map rulePts).sum := by
  induction rules generalizing bd t with
  | nil => simp
  | cons r rest ih => simp [ruleStep, ih, add_assoc]

lemma round2_natCast (m : ℕ) : round2 ((m : ℚ)) = (m : ℚ) := by
  unfold round2
  rw [show ((m : ℚ) * 100) = (((m * 100 : ℕ) : ℤ) : ℚ) by push_cast; ring,
    round_intCast]
  push_cast
  field_simp

lemma pen_nonneg (uf : UserFeatures) :
    0 ≤ min ((uf.consecutive_failures : ℚ) * 1) 10 := by positivity

lemma calc_unfold (result : DetectionResult) (uf : UserFeatures) :
    (calculate_risk_score result uf).score
      = round2 (min ((result.triggered_rules.map rulePts).sum
          + (if result.detection_method = "ml" ∨ result.detection_method = "both"
             then ML_ANOMALY_BONUS else 0)
          + min ((uf.consecutive_failures : ℚ) * 1) 10) MAX_SCORE)
    ∧ (calculate_risk_score result uf).level
      = _level (min ((result.triggered_rules.map rulePts).sum
          + (if result.detection_method = "ml" ∨ result.detection_method = "both"
             then ML_ANOMALY_BONUS else 0)
          + min ((uf.consecutive_failures : ℚ) * 1) 10) MAX_SCORE) := by
  have h0 : (result.triggered_rules.foldl ruleStep
      (([], 0) : List (String × ℚ) × ℚ)).2
      = (result.triggered_rules.map rulePts).sum := by
    rw [foldl_ruleStep_total]; ring
  have hpz := pen_nonneg uf
  by_cases hml : result.detection_method = "ml" ∨ result.detection_method = "both"
  · by_cases hp : 0 < min ((uf.consecutive_failures : ℚ) * 1) 10
    · simp only [calculate_risk_score, hml, hp, if_true, if_false, ite_true,
        ite_false, h0]
      exact ⟨trivial, trivial⟩
    · have hpe : min ((uf.consecutive_failures : ℚ) * 1) 10 = 0 :=
        le_antisymm (not_lt.mp hp) hpz
      simp only [calculate_risk_score, hml, hp, if_true, if_false, ite_true,
        ite_false, h0, hpe, add_zero]
      rw [if_neg (lt_irrefl (0 : ℚ))]
      exact ⟨rfl, rfl⟩
  · by_cases hp : 0 < min ((uf.consecutive_failures : ℚ) * 1) 10
    · simp only [calculate_risk_score, hml, hp, if_true, if_false, ite_true,
        ite_false, h0, add_zero]
      exact ⟨trivial, trivial⟩
    · have hpe : min ((uf.consecutive_failures : ℚ) * 1) 10 = 0 :=
        le_antisymm (not_lt.mp hp) hpz
      simp only [calculate_risk_score, hml, hp, if_true, if_false, ite_true,
        ite_false, h0, hpe, add_zero]
      rw [if_neg (lt_irrefl (0 : ℚ)),
        show (List.foldl ruleStep (([], 0) : List (String × ℚ) × ℚ)
            result.triggered_rules).2
          = (result.triggered_rules.map rulePts).sum from h0]
      exact ⟨rfl, rfl⟩

lemma calc_score_shape (result : DetectionResult) (uf : UserFeatures) :
    ∃ n : ℕ,
      ((n : ℚ) = (result.triggered_rules.map rulePts).sum
        + (if result.detection_method = "ml" ∨ result.detection_method = "both"
           then ML_ANOMALY_BONUS else 0)
        + min ((uf.consecutive_failures : ℚ) * 1) 10)
      ∧ (calculate_risk_score result uf).score = ((min n 100 : ℕ) : ℚ)
      ∧ (calculate_risk_score result uf).level
          = _level (((min n 100 : ℕ) : ℚ)) := by
  obtain ⟨s, hs⟩ := ruleSum_shape result.triggered_rules
  obtain ⟨hscore, hlevel⟩ := calc_unfold result uf
  refine ⟨s + (if result.detection_method = "ml" ∨ result.detection_method = "both"
      then 15 else 0) + min uf.consecutive_failures 10, ?_, ?_, ?_⟩
  all_goals {
    have hbq : (((if result.detection_method = "ml" ∨ result.detection_method = "both"
        then 15 else 0) : ℕ) : ℚ)
        = (if result.detection_method = "ml" ∨ result.detection_method = "both"
           then ML_ANOMALY_BONUS else 0) := by
      split_ifs <;> simp [ML_ANOMALY_BONUS]
    have hn : (((s + (if result.detection_method = "ml" ∨ result.detection_method = "both"
        then 15 else 0) + min uf.consecutive_failures 10 : ℕ)) : ℚ)
        = (result.triggered_rules.map rulePts).sum
          + (if result.detection_method = "ml" ∨ result.detection_method = "both"
             then ML_ANOMALY_BONUS else 0)
          + min ((uf.consecutive_failures : ℚ) * 1) 10 := by
      rw [hs] at *
      push_cast [← hbq]
      ring
    have hmin : min ((result.triggered_rules.map rulePts).sum
          + (if result.detection_method = "ml" ∨ result.detection_method = "both"
             then ML_ANOMALY_BONUS else 0)
          + min ((uf.consecutive_failures : ℚ) * 1) 10) MAX_SCORE
        = ((min (s + (if result.detection_method = "ml" ∨ result.detection_method = "both"
            then 15 else 0) + min uf.consecutive_failures 10) 100 : ℕ) : ℚ) := by
      rw [← hn]
      push_cast
      rw [show MAX_SCORE = ((100 : ℕ) : ℚ) by norm_num [MAX_SCORE]]
      push_cast
      rfl
    first
    | exact hn
    | (rw [hscore, hmin, round2_natCast])
    | (rw [hlevel, hmin])
  }

lemma levelRank_level (s : ℚ) :
    levelRank (_level s)
      = if s ≥ 80 then 3 else if s ≥ 60 then 2 else if s ≥ 40 then 1 else 0 := by
  unfold _level
  split_ifs <;> decide

lemma levelRank_level_mono (a b : ℚ) (hab : a ≤ b) :
    levelRank (_level a) ≤ levelRank (_level b) := by
  rw [levelRank_level, levelRank_level]
  split_ifs <;> linarith

lemma level_of_lt_40 (s : ℚ) (h : s < 40) : _level s = "LOW" := by
  unfold _level
  split_ifs <;> first | rfl | linarith

lemma levelRank_of_ge_40 (s : ℚ) (h : 40 ≤ s) : 1 ≤ levelRank (_level s) := by
  rw [levelRank_level]
  split_ifs <;> linarith

lemma mem_evaluate_R04 (uf : UserFeatures) :
    "R04_MULTIPLE_SOURCE_IPS" ∈ RuleEngine.evaluate uf ↔ 3 ≤ uf.unique_ips := by
  simp [RuleEngine.evaluate, List.mem_append, mem_ite_singleton]

lemma mem_evaluate_R08 (uf : UserFeatures) :
    "R08_MULTI_REGION_ACTIVITY" ∈ RuleEngine.evaluate uf
      ↔ 2 ≤ uf.unique_regions := by
  simp [RuleEngine.evaluate, List.mem_append, mem_ite_singleton]

lemma mem_evaluate_R06 (uf : UserFeatures) :
    "R06_CONSECUTIVE_FAILURES" ∈ RuleEngine.evaluate uf
      ↔ 5 ≤ uf.consecutive_failures := by
  simp [RuleEngine.evaluate, List.mem_append, mem_ite_singleton]

lemma mem_evaluate_R01 (uf : UserFeatures) :
    "R01_OFF_HOURS_ACCESS" ∈ RuleEngine.evaluate uf
      ↔ (uf.off_hours_event_count : ℚ) / ((max uf.total_events 1 : ℕ) : ℚ)
          > 0.30 := by
  simp [RuleEngine.evaluate, List.mem_append, mem_ite_singleton]

lemma mem_evaluate_R02 (uf : UserFeatures) :
    "R02_HIGH_RISK_RATIO" ∈ RuleEngine.evaluate uf
      ↔ (uf.high_risk_event_count : ℚ) / ((max uf.total_events 1 : ℕ) : ℚ)
          > 0.20 := by
  simp [RuleEngine.evaluate, List.mem_append, mem_ite_singleton]

lemma mem_evaluate_R05 (uf : UserFeatures) :
    "R05_HIGH_FAILURE_RATE" ∈ RuleEngine.evaluate uf
      ↔ (uf.failed_event_count : ℚ) / ((max uf.total_events 1 : ℕ) : ℚ)
          > 0.40 := by
  simp [RuleEngine.evaluate, List.mem_append, mem_ite_singleton]

lemma mem_evaluate_R03 (uf : UserFeatures) :
    "R03_HIGH_RISK_NO_MFA" ∈ RuleEngine.evaluate uf
      ↔ 1 ≤ uf.mfa_missing_high_risk := by
  simp [RuleEngine.evaluate, List.mem_append, mem_ite_singleton]

/-- C1: for every account, the risk score lies in [0, 100], the level is the
function of the capped score computed by `_level` (≥80 CRITICAL, ≥60 HIGH,
≥40 MEDIUM, else LOW), and that function is monotone in the score. -/
theorem riskScore_bounds_and_level (result : DetectionResult)
    (uf : UserFeatures) :
    (0 ≤ (calculate_risk_score result uf).score
      ∧ (calculate_risk_score result uf).score ≤ 100)
    ∧ (calculate_risk_score result uf).level
        = _level ((calculate_risk_score result uf).score)
    ∧ (∀ a b : ℚ, a ≤ b → levelRank (_level a) ≤ levelRank (_level b))
    ∧ (∀ s : ℚ, (80 ≤ s → _level s = "CRITICAL")
        ∧ (60 ≤ s → s < 80 → _level s = "HIGH")
        ∧ (40 ≤ s → s < 60 → _level s = "MEDIUM")
        ∧ (s < 40 → _level s = "LOW")) := by
  obtain ⟨n, hn, hscore, hlevel⟩ := calc_score_shape result uf
  refine ⟨⟨?_, ?_⟩, ?_, fun a b hab => levelRank_level_mono a b hab, fun s => ?_⟩
  · rw [hscore]; positivity
  · rw [hscore]
    exact_mod_cast min_le_right n 100
  · rw [hscore, hlevel]
  · refine ⟨fun h => ?_, fun h1 h2 => ?_, fun h1 h2 => ?_,
      fun h => level_of_lt_40 s h⟩
    · unfold _level
      rw [if_pos (show s ≥ 80 from h)]
    · unfold _level
      rw [if_neg (show ¬ s ≥ 80 by linarith), if_pos (show s ≥ 60 from h1)]
    · unfold _level
      rw [if_neg (show ¬ s ≥ 80 by linarith),
        if_neg (show ¬ s ≥ 60 by linarith), if_pos (show s ≥ 40 from h1)]

/-- C2: every result of the detection pipeline has detection_method "both"
iff rules triggered and the ML flag is set, "rule" iff only rules, "ml" iff
only the ML flag, "none" otherwise, and is_anomaly iff method ≠ "none". -/
theorem detection_method_consistent (ml_scores : String → ℚ)
    (ml_threshold : ℚ) (features_list : List UserFeatures)
    (r : DetectionResult)
    (hr : r ∈ AnomalyEngine.detectWith ml_scores ml_threshold features_list) :
    (r.detection_method = "both"
      ↔ (r.triggered_rules ≠ [] ∧ r.ml_anomaly_score ≤ ml_threshold))
    ∧ (r.detection_method = "rule"
      ↔ (r.triggered_rules ≠ [] ∧ ¬ r.ml_anomaly_score ≤ ml_threshold))
    ∧ (r.detection_method = "ml"
      ↔ (r.triggered_rules = [] ∧ r.ml_anomaly_score ≤ ml_threshold))
    ∧ (r.detection_method = "none"
      ↔ (r.triggered_rules = [] ∧ ¬ r.ml_anomaly_score ≤ ml_threshold))
    ∧ (r.is_anomaly = true ↔ r.detection_method ≠ "none") := by
  obtain ⟨uf, -, rfl⟩ := List.mem_map.mp hr
  by_cases hra : RuleEngine.evaluate uf = [] <;>
    by_cases hml : ml_scores uf.user_arn ≤ ml_threshold <;>
    simp [AnomalyEngine.detectAccount, hra, hml, List.length_pos]

/-- C2 witness: the consistency conditions at a concrete one-account batch. -/
theorem detection_method_consistent_witness :
    ((AnomalyEngine.detectAccount 0 0 ufSolo).detection_method = "both"
      ↔ ((AnomalyEngine.detectAccount 0 0 ufSolo).triggered_rules ≠ []
          ∧ (AnomalyEngine.detectAccount 0 0 ufSolo).ml_anomaly_score ≤ 0))
    ∧ ((AnomalyEngine.detectAccount 0 0 ufSolo).detection_method = "rule"
      ↔ ((AnomalyEngine.detectAccount 0 0 ufSolo).triggered_rules ≠ []
          ∧ ¬ (AnomalyEngine.detectAccount 0 0 ufSolo).ml_anomaly_score ≤ 0))
    ∧ ((AnomalyEngine.detectAccount 0 0 ufSolo).detection_method = "ml"
      ↔ ((AnomalyEngine.detectAccount 0 0 ufSolo).triggered_rules = []
          ∧ (AnomalyEngine.detectAccount 0 0 ufSolo).ml_anomaly_score ≤ 0))
    ∧ ((AnomalyEngine.detectAccount 0 0 ufSolo).detection_method = "none"
      ↔ ((AnomalyEngine.detectAccount 0 0 ufSolo).triggered_rules = []
          ∧ ¬ (AnomalyEngine.detectAccount 0 0 ufSolo).ml_anomaly_score ≤ 0))
    ∧ ((AnomalyEngine.detectAccount 0 0 ufSolo).is_anomaly = true
      ↔ (AnomalyEngine.detectAccount 0 0 ufSolo).detection_method ≠ "none") :=
  detection_method_consistent (fun _ => 0) 0 [ufSolo]
    (AnomalyEngine.detectAccount 0 0 ufSolo)
    (by simp [AnomalyEngine.detectWith])

lemma evaluate_ufSolo : RuleEngine.evaluate ufSolo = [] := by
  norm_num [RuleEngine.evaluate, ufSolo]

/-- C3: on a batch with fewer than two accounts the degraded detector returns
the neutral score 0.0 for the account, but with the default threshold 0.0 the
engine then flags it: detection_method "ml" and is_anomaly true — the code
flags ML anomalies exactly where the spec says it never does. -/
theorem detect_degraded_singleton_flags_ml :
    (AnomalyEngine.detect_degraded 0 [ufSolo]).map
        (fun r => (r.detection_method, r.is_anomaly))
      = [("ml", true)]
    ∧ (MLAnomalyDetector.fit_predict_degraded [ufSolo]).map Prod.snd
      = [0] := by
  constructor
  · simp [AnomalyEngine.detect_degraded, AnomalyEngine.detectWith,
      AnomalyEngine.detectAccount, MLAnomalyDetector.fit_predict_degraded,
      alistGetD, List.find?, evaluate_ufSolo]
  · simp [MLAnomalyDetector.fit_predict_degraded]

/-- C4 counterexample: three events of one account carrying the same
timestamp; the two input orders are permutations of each other, yet the
longest-consecutive-failure feature computes 1 for one order and 2 for the
other (the stable sort preserves input order within a timestamp tie). -/
theorem consecutive_failures_order_sensitive :
    ([evF, evO, evF].Perm [evF, evF, evO])
    ∧ _max_consecutive_failures [evF, evO, evF] = 1
    ∧ _max_consecutive_failures [evF, evF, evO] = 2 := by
  refine ⟨?_, ?_, ?_⟩ <;> decide

/-- C4 (amended): when the event timestamps of the partition are pairwise
distinct, `_max_consecutive_failures` is invariant under permutation of the
input, and a run ≥ 5 triggers CONSECUTIVE_FAILURES. -/
theorem maxConsecFailures_perm_invariant (l₁ l₂ : List CloudTrailEvent)
    (hperm : l₁.Perm l₂)
    (hnd : (l₁.map (fun e => e.event_time)).Nodup) :
    _max_consecutive_failures l₁ = _max_consecutive_failures l₂
    ∧ (∀ uf : UserFeatures, 5 ≤ uf.consecutive_failures →
        "R06_CONSECUTIVE_FAILURES" ∈ RuleEngine.evaluate uf) := by
  constructor
  · suffices h : List.insertionSort byEventTime l₁
        = List.insertionSort byEventTime l₂ by
      unfold _max_consecutive_failures
      rw [h]
    have hp1 : (List.insertionSort byEventTime l₁).Perm l₁ :=
      List.perm_insertionSort _ _
    have hp2 : (List.insertionSort byEventTime l₂).Perm l₂ :=
      List.perm_insertionSort _ _
    have hpp : (List.insertionSort byEventTime l₁).Perm
        (List.insertionSort byEventTime l₂) :=
      hp1.trans (hperm.trans hp2.symm)
    have hs1 : List.Sorted byEventTime (List.insertionSort byEventTime l₁) :=
      List.sorted_insertionSort _ _
    have hs2 : List.Sorted byEventTime (List.insertionSort byEventTime l₂) :=
      List.sorted_insertionSort _ _
    have hnd1 : ((List.insertionSort byEventTime l₁).map
        (fun e => e.event_time)).Nodup :=
      ((hp1.map (fun e => e.event_time)).nodup_iff).mpr hnd
    have hnd2 : ((List.insertionSort byEventTime l₂).map
        (fun e => e.event_time)).Nodup :=
      ((hp2.map (fun e => e.event_time)).nodup_iff).mpr
        (((hperm.map (fun e => e.event_time)).nodup_iff).mp hnd)
    have hlt1 : List.Pairwise
        (fun a b : CloudTrailEvent => a.event_time < b.event_time)
        (List.insertionSort byEventTime l₁) :=
      (hs1.and (List.pairwise_map.mp hnd1)).imp
        (fun hab => lt_of_le_of_ne hab.1 hab.2)
    have hlt2 : List.Pairwise
        (fun a b : CloudTrailEvent => a.event_time < b.event_time)
        (List.insertionSort byEventTime l₂) :=
      (hs2.and (List.pairwise_map.mp hnd2)).imp
        (fun hab => lt_of_le_of_ne hab.1 hab.2)
    letI : IsAntisymm CloudTrailEvent
        (fun a b => a.event_time < b.event_time) :=
      ⟨fun a b h1 h2 => absurd h2 (Nat.lt_asymm h1)⟩
    exact List.eq_of_perm_of_sorted hpp hlt1 hlt2
  · intro uf h5
    exact (mem_evaluate_R06 uf).mpr h5

/-- C4 witness: permutation invariance at two concrete events with distinct
timestamps. -/
theorem maxConsecFailures_perm_invariant_witness :
    _max_consecutive_failures [evF, evF2]
      = _max_consecutive_failures [evF2, evF]
    ∧ (∀ uf : UserFeatures, 5 ≤ uf.consecutive_failures →
        "R06_CONSECUTIVE_FAILURES" ∈ RuleEngine.evaluate uf) :=
  maxConsecFailures_perm_invariant [evF, evF2] [evF2, evF]
    (by decide) (by decide)

lemma ruleSum_nonneg (l : List String) : 0 ≤ (l.map rulePts).sum := by
  obtain ⟨n, hn⟩ := ruleSum_shape l
  rw [hn]
  positivity

lemma evaluate_uf5 :
    RuleEngine.evaluate uf5
      = ["R02_HIGH_RISK_RATIO", "R03_HIGH_RISK_NO_MFA"] := by
  norm_num [RuleEngine.evaluate, uf5]

/-- C5 counterexample: the scenario account (4 events, all high-privilege,
none with MFA, 1 source IP) triggers exactly R02 and R03; the score is 35
and the level is "LOW", strictly below MEDIUM — the claim's "level at least
MEDIUM" fails. -/
theorem c5_score35_level_low :
    RuleEngine.evaluate uf5 = ["R02_HIGH_RISK_RATIO", "R03_HIGH_RISK_NO_MFA"]
    ∧ (calculate_risk_score res5 uf5).score = 35
    ∧ (calculate_risk_score res5 uf5).level = "LOW"
    ∧ levelRank "LOW" < levelRank "MEDIUM" := by
  obtain ⟨hscore, hlevel⟩ := calc_unfold res5 uf5
  have hsum : (res5.triggered_rules.map rulePts).sum = 35 := by
    simp only [res5, evaluate_uf5, List.map_cons, List.map_nil, List.sum_cons,
      List.sum_nil]
    rw [show rulePts "R02_HIGH_RISK_RATIO" = 15 from by decide,
      show rulePts "R03_HIGH_RISK_NO_MFA" = 20 from by decide]
    norm_num
  have hml : ¬(res5.detection_method = "ml" ∨ res5.detection_method = "both") := by
    simp [res5]
  have hpen : min ((uf5.consecutive_failures : ℚ) * 1) 10 = 0 := by
    norm_num [uf5]
  rw [hsum, if_neg hml, hpen] at hscore hlevel
  have hmin : min ((35 : ℚ) + 0 + 0) MAX_SCORE = 35 := by
    norm_num [MAX_SCORE]
  rw [hmin] at hscore hlevel
  refine ⟨evaluate_uf5, ?_, ?_, by decide⟩
  · rw [hscore, show (35 : ℚ) = ((35 : ℕ) : ℚ) from by norm_num,
      round2_natCast]
  · rw [hlevel]
    exact level_of_lt_40 35 (by norm_num)

/-- C5 (amended): the scenario triggers HIGH_RISK_RATIO and HIGH_RISK_NO_MFA
and scores at least 35; the level is LOW while the score stays below 40, and
at least MEDIUM exactly when further contributions bring the score to 40. -/
theorem c5_scenario_amended (uf : UserFeatures) (result : DetectionResult)
    (h1 : uf.total_events = 4) (h2 : uf.high_risk_event_count = 4)
    (h3 : 1 ≤ uf.mfa_missing_high_risk)
    (h4 : result.triggered_rules = RuleEngine.evaluate uf) :
    "R02_HIGH_RISK_RATIO" ∈ result.triggered_rules
    ∧ "R03_HIGH_RISK_NO_MFA" ∈ result.triggered_rules
    ∧ 35 ≤ (calculate_risk_score result uf).score
    ∧ ((calculate_risk_score result uf).score < 40
        → (calculate_risk_score result uf).level = "LOW")
    ∧ (40 ≤ (calculate_risk_score result uf).score
        → 1 ≤ levelRank ((calculate_risk_score result uf).level)) := by
  have hc2 : (uf.high_risk_event_count : ℚ)
      / ((max uf.total_events 1 : ℕ) : ℚ) > 0.20 := by
    rw [h1, h2]
    norm_num
  have he : RuleEngine.evaluate uf
      = (if (uf.off_hours_event_count : ℚ)
            / ((max uf.total_events 1 : ℕ) : ℚ) > 0.30
         then ["R01_OFF_HOURS_ACCESS"] else [])
        ++ (["R02_HIGH_RISK_RATIO"]
        ++ (["R03_HIGH_RISK_NO_MFA"]
        ++ ((if uf.unique_ips ≥ 3 then ["R04_MULTIPLE_SOURCE_IPS"] else [])
        ++ ((if (uf.failed_event_count : ℚ)
              / ((max uf.total_events 1 : ℕ) : ℚ) > 0.40
             then ["R05_HIGH_FAILURE_RATE"] else [])
        ++ ((if uf.consecutive_failures ≥ 5
             then ["R06_CONSECUTIVE_FAILURES"] else [])
        ++ ((if uf.admin_action_count ≥ 5
             then ["R07_EXCESSIVE_ADMIN_ACTIONS"] else [])
        ++ ((if uf.unique_regions ≥ 2
             then ["R08_MULTI_REGION_ACTIVITY"] else [])
        ++ (if uf.total_events > 100
            then ["R09_EVENT_BURST"] else [])))))))) := by
    simp only [RuleEngine.evaluate]
    rw [if_pos hc2, if_pos (show uf.mfa_missing_high_risk ≥ 1 from h3)]
    simp only [List.append_assoc]
  have hsum : 35 ≤ ((RuleEngine.evaluate uf).map rulePts).sum := by
    rw [he]
    simp only [List.map_append, List.sum_append, List.map_cons, List.map_nil,
      List.sum_cons, List.sum_nil]
    rw [show rulePts "R02_HIGH_RISK_RATIO" = 15 from by decide,
      show rulePts "R03_HIGH_RISK_NO_MFA" = 20 from by decide]
    have n1 := ruleSum_nonneg (if (uf.off_hours_event_count : ℚ)
        / ((max uf.total_events 1 : ℕ) : ℚ) > 0.30
      then ["R01_OFF_HOURS_ACCESS"] else [])
    have n4 := ruleSum_nonneg (if uf.unique_ips ≥ 3
      then ["R04_MULTIPLE_SOURCE_IPS"] else [])
    have n5 := ruleSum_nonneg (if (uf.failed_event_count : ℚ)
        / ((max uf.total_events 1 : ℕ) : ℚ) > 0.40
      then ["R05_HIGH_FAILURE_RATE"] else [])
    have n6 := ruleSum_nonneg (if uf.consecutive_failures ≥ 5
      then ["R06_CONSECUTIVE_FAILURES"] else [])
    have n7 := ruleSum_nonneg (if uf.admin_action_count ≥ 5
      then ["R07_EXCESSIVE_ADMIN_ACTIONS"] else [])
    have n8 := ruleSum_nonneg (if uf.unique_regions ≥ 2
      then ["R08_MULTI_REGION_ACTIVITY"] else [])
    have n9 := ruleSum_nonneg (if uf.total_events > 100
      then ["R09_EVENT_BURST"] else [])
    linarith
  obtain ⟨n, hn, hscore, hlevel⟩ := calc_score_shape result uf
  have hbonus : (0 : ℚ) ≤ (if result.detection_method = "ml"
      ∨ result.detection_method = "both" then ML_ANOMALY_BONUS else 0) := by
    split_ifs <;> norm_num [ML_ANOMALY_BONUS]
  have hpen : (0 : ℚ) ≤ min ((uf.consecutive_failures : ℚ) * 1) 10 := pen_nonneg uf
  have hn35 : 35 ≤ n := by
    have : (35 : ℚ) ≤ (n : ℚ) := by
      rw [hn, h4]
      linarith
    exact_mod_cast this
  have hs35 : 35 ≤ (calculate_risk_score result uf).score := by
    rw [hscore]
    have : 35 ≤ min n 100 := le_min hn35 (by norm_num)
    exact_mod_cast this
  refine ⟨?_, ?_, hs35, fun hlt => ?_, fun hge => ?_⟩
  · rw [h4, he]
    simp
  · rw [h4, he]
    simp
  · rw [hscore] at hlt
    rw [hlevel]
    exact level_of_lt_40 _ hlt
  · rw [hscore] at hge
    rw [hlevel]
    exact levelRank_of_ge_40 _ hge

/-- C5 witness: the amended scenario at the concrete account `uf5`. -/
theorem c5_scenario_amended_witness :
    "R02_HIGH_RISK_RATIO" ∈ res5.triggered_rules
    ∧ "R03_HIGH_RISK_NO_MFA" ∈ res5.triggered_rules
    ∧ 35 ≤ (calculate_risk_score res5 uf5).score
    ∧ ((calculate_risk_score res5 uf5).score < 40
        → (calculate_risk_score res5 uf5).level = "LOW")
    ∧ (40 ≤ (calculate_risk_score res5 uf5).score
        → 1 ≤ levelRank ((calculate_risk_score res5 uf5).level)) :=
  c5_scenario_amended uf5 res5 rfl rfl (by norm_num [uf5]) rfl

lemma append_ite_singleton (l : List String) (c : Prop) [Decidable c]
    (x : String) :
    (if c then l ++ [x] else l) = l ++ (if c then [x] else []) := by
  split_ifs <;> simp

/-- C6 counterexample: with R01 and R03 both triggered the list is
[MFA sentence, off-hours sentence] — R03's sentence first, not catalog order
(catalog order would put R01's first); and with only R02 triggered (a rule
with no sentence) the list is just the fallback, despite a triggered rule. -/
theorem recommendations_not_catalog_order :
    _recommendations res6 ufSolo "LOW" = [REC_MFA, REC_NIGHT]
    ∧ REC_MFA ≠ REC_NIGHT
    ∧ res6.triggered_rules = ["R01_OFF_HOURS_ACCESS", "R03_HIGH_RISK_NO_MFA"]
    ∧ _recommendations res7 ufSolo "LOW" = [REC_NONE]
    ∧ res7.triggered_rules = ["R02_HIGH_RISK_RATIO"] := by
  refine ⟨?_, by simp [REC_MFA, REC_NIGHT], rfl, ?_, rfl⟩ <;>
    simp [_recommendations, res6, res7, REC_MFA, REC_NIGHT, REC_URGENT,
      REC_NONE]

set_option maxHeartbeats 2000000 in
/-- C6 (amended): the recommendation list equals the declarative
reconstruction: one sentence per triggered rule among the six that have one,
in the fixed source order R03, R06, R07, R04, R01, R08 (not catalog order;
R02, R05, R09 have no sentence), then the ML sentence when the method is ml
or both, with the urgent directive prepended for CRITICAL and the fallback
exactly when the list would otherwise be empty. -/
theorem recommendations_structure (result : DetectionResult)
    (uf : UserFeatures) (level : String) :
    _recommendations result uf level = expectedRecommendations result level := by
  by_cases c3 : result.triggered_rules.contains "R03_HIGH_RISK_NO_MFA" <;>
  by_cases c6 : result.triggered_rules.contains "R06_CONSECUTIVE_FAILURES" <;>
  by_cases c7 : result.triggered_rules.contains "R07_EXCESSIVE_ADMIN_ACTIONS" <;>
  by_cases c4 : result.triggered_rules.contains "R04_MULTIPLE_SOURCE_IPS" <;>
  by_cases c1 : result.triggered_rules.contains "R01_OFF_HOURS_ACCESS" <;>
  by_cases c8 : result.triggered_rules.contains "R08_MULTI_REGION_ACTIVITY" <;>
    simp only [_recommendations, expectedRecommendations, RECS_BY_RULE,
      List.filter_cons, List.filter_nil, List.map_cons, List.map_nil,
      c3, c6, c7, c4, c1, c8, if_true, if_false, ite_true, ite_false,
      Bool.false_eq_true, List.nil_append, List.append_nil,
      append_ite_singleton, List.cons_append, List.append_assoc] <;>
    split_ifs <;> simp_all

/-- C7: rule evaluation divides only by `max(total_events, 1)`, which is
positive, and for a zero-event account (all counters zero) none of the three
ratio rules triggers, in the SaaS engine and in the MVP rule table alike. -/
theorem ratio_rules_zero_event_safe (uf : UserFeatures)
    (h0 : uf.total_events = 0) (h1 : uf.off_hours_event_count = 0)
    (h2 : uf.high_risk_event_count = 0) (h3 : uf.failed_event_count = 0) :
    0 < max uf.total_events 1
    ∧ "R01_OFF_HOURS_ACCESS" ∉ RuleEngine.evaluate uf
    ∧ "R02_HIGH_RISK_RATIO" ∉ RuleEngine.evaluate uf
    ∧ "R05_HIGH_FAILURE_RATE" ∉ RuleEngine.evaluate uf
    ∧ (∀ m : Mvp.UserFeatures, 0 < max m.total_events 1)
    ∧ (∀ m : Mvp.UserFeatures, m.total_events = 0 → m.off_hours_events = 0 →
        m.high_risk_events = 0 → m.failed_events = 0 →
        ("R01_OFF_HOURS" ∉ Mvp.triggeredRules m
         ∧ "R02_HIGH_RISK_RATIO" ∉ Mvp.triggeredRules m
         ∧ "R05_HIGH_FAIL_RATE" ∉ Mvp.triggeredRules m)) := by
  refine ⟨by omega, ?_, ?_, ?_, fun m => by omega, fun m hm0 hm1 hm2 hm3 => ?_⟩
  · rw [mem_evaluate_R01, h0, h1]
    norm_num
  · rw [mem_evaluate_R02, h0, h2]
    norm_num
  · rw [mem_evaluate_R05, h0, h3]
    norm_num
  · refine ⟨?_, ?_, ?_⟩ <;>
      simp [Mvp.triggeredRules, Mvp.RULES, List.mem_map, List.mem_filter,
        hm0, hm1, hm2, hm3] <;>
      norm_num

/-- C7 witness: the zero-event account `ufSolo`. -/
theorem ratio_rules_zero_event_safe_witness :
    0 < max ufSolo.total_events 1
    ∧ "R01_OFF_HOURS_ACCESS" ∉ RuleEngine.evaluate ufSolo
    ∧ "R02_HIGH_RISK_RATIO" ∉ RuleEngine.evaluate ufSolo
    ∧ "R05_HIGH_FAILURE_RATE" ∉ RuleEngine.evaluate ufSolo
    ∧ (∀ m : Mvp.UserFeatures, 0 < max m.total_events 1)
    ∧ (∀ m : Mvp.UserFeatures, m.total_events = 0 → m.off_hours_events = 0 →
        m.high_risk_events = 0 → m.failed_events = 0 →
        ("R01_OFF_HOURS" ∉ Mvp.triggeredRules m
         ∧ "R02_HIGH_RISK_RATIO" ∉ Mvp.triggeredRules m
         ∧ "R05_HIGH_FAIL_RATE" ∉ Mvp.triggeredRules m)) :=
  ratio_rules_zero_event_safe ufSolo rfl rfl rfl rfl

/-- C8: an account whose only signal is a failure run r with 1 ≤ r ≤ 4 gets
detection_method "none" and is_anomaly false, yet a strictly positive score
equal to r — a positive score does not imply an anomaly flag. -/
theorem positive_score_without_anomaly (uf : UserFeatures)
    (ml_score ml_threshold : ℚ)
    (hrules : RuleEngine.evaluate uf = [])
    (hml : ¬ ml_score ≤ ml_threshold)
    (hc1 : 1 ≤ uf.consecutive_failures) (hc4 : uf.consecutive_failures ≤ 4) :
    (AnomalyEngine.detectAccount ml_threshold ml_score uf).detection_method
      = "none"
    ∧ (AnomalyEngine.detectAccount ml_threshold ml_score uf).is_anomaly
      = false
    ∧ (calculate_risk_score
        (AnomalyEngine.detectAccount ml_threshold ml_score uf) uf).score
      = (uf.consecutive_failures : ℚ)
    ∧ 0 < (calculate_risk_score
        (AnomalyEngine.detectAccount ml_threshold ml_score uf) uf).score := by
  have hmethod : (AnomalyEngine.detectAccount ml_threshold ml_score uf).detection_method
      = "none" := by
    simp [AnomalyEngine.detectAccount, hrules, hml]
  have hanom : (AnomalyEngine.detectAccount ml_threshold ml_score uf).is_anomaly
      = false := by
    simp [AnomalyEngine.detectAccount, hrules, hml]
  have htrig : (AnomalyEngine.detectAccount ml_threshold ml_score uf).triggered_rules
      = [] := by
    simp [AnomalyEngine.detectAccount, hrules]
  obtain ⟨n, hn, hscore, hlevel⟩ :=
    calc_score_shape (AnomalyEngine.detectAccount ml_threshold ml_score uf) uf
  have hcle : (uf.consecutive_failures : ℚ) ≤ 10 := by
    have : (uf.consecutive_failures : ℚ) ≤ 4 := by exact_mod_cast hc4
    linarith
  have hnval : (n : ℚ) = (uf.consecutive_failures : ℚ) := by
    rw [hn, htrig, hmethod]
    simp [mul_one, min_eq_left hcle]
  have hneq : n = uf.consecutive_failures := by exact_mod_cast hnval
  have hmin : min n 100 = n := min_eq_left (by omega)
  refine ⟨hmethod, hanom, ?_, ?_⟩
  · rw [hscore, hmin, hneq]
  · rw [hscore, hmin, hneq]
    exact_mod_cast hc1

/-- C8 witness: the account with a failure run of 3 and no other signal. -/
theorem positive_score_without_anomaly_witness :
    (AnomalyEngine.detectAccount 0 1 uf8).detection_method = "none"
    ∧ (AnomalyEngine.detectAccount 0 1 uf8).is_anomaly = false
    ∧ (calculate_risk_score (AnomalyEngine.detectAccount 0 1 uf8) uf8).score
      = (uf8.consecutive_failures : ℚ)
    ∧ 0 < (calculate_risk_score (AnomalyEngine.detectAccount 0 1 uf8) uf8).score :=
  positive_score_without_anomaly uf8 1 0
    (by norm_num [RuleEngine.evaluate, uf8]) (by norm_num)
    (by norm_num [uf8]) (by norm_num [uf8])

lemma alistLookup_dictInsert_self (l : List (String × ℚ)) (k : String)
    (v : ℚ) : alistLookup (dictInsert l k v) k = some v := by
  induction l with
  | nil => simp [dictInsert, alistLookup, List.find?]
  | cons p rest ih =>
    by_cases h : p.1 = k
    · simp [dictInsert, h, alistLookup, List.find?]
    · simp only [dictInsert, if_neg h]
      simpa [alistLookup, List.find?, beq_eq_false_iff_ne.mpr h] using ih

lemma alistLookup_dictInsert_other (l : List (String × ℚ)) (k k' : String)
    (v : ℚ) (h : k' ≠ k) :
    alistLookup (dictInsert l k' v) k = alistLookup l k := by
  induction l with
  | nil => simp [dictInsert, alistLookup, List.find?, beq_eq_false_iff_ne.mpr h]
  | cons p rest ih =>
    by_cases hp : p.1 = k'
    · simp [dictInsert, hp, alistLookup, List.find?,
        beq_eq_false_iff_ne.mpr h,
        show (p.1 == k) = false from beq_eq_false_iff_ne.mpr (hp ▸ h)]
    · simp only [dictInsert, if_neg hp]
      by_cases hk : p.1 = k
      · simp [alistLookup, List.find?, hk]
      · simpa [alistLookup, List.find?, beq_eq_false_iff_ne.mpr hk] using ih

lemma alistLookup_dictInsert_isSome (l : List (String × ℚ)) (k k' : String)
    (v : ℚ) (h : (alistLookup l k).isSome = true) :
    (alistLookup (dictInsert l k' v) k).isSome = true := by
  by_cases hk : k' = k
  · subst hk
    rw [alistLookup_dictInsert_self]
    rfl
  · rw [alistLookup_dictInsert_other l k k' v hk]
    exact h

lemma foldl_ruleStep_lookup_not_mem (rules : List String)
    (bd : List (String × ℚ)) (t : ℚ) (rule : String) (h : rule ∉ rules) :
    alistLookup (List.foldl ruleStep (bd, t) rules).1 rule
      = alistLookup bd rule := by
  induction rules generalizing bd t with
  | nil => rfl
  | cons r rest ih =>
    simp only [List.mem_cons, not_or] at h
    simp only [List.foldl_cons, ruleStep]
    rw [ih _ _ h.2]
    exact alistLookup_dictInsert_other bd rule r (rulePts r)
      (fun he => h.1 he.symm)

lemma foldl_ruleStep_lookup_mem (rules : List String)
    (bd : List (String × ℚ)) (t : ℚ) (rule : String) (h : rule ∈ rules) :
    alistLookup (List.foldl ruleStep (bd, t) rules).1 rule
      = some (rulePts rule) := by
  induction rules generalizing bd t with
  | nil => cases h
  | cons r rest ih =>
    by_cases hr : rule ∈ rest
    · simp only [List.foldl_cons, ruleStep]
      exact ih _ _ hr
    · have heq : rule = r := by
        rcases List.mem_cons.mp h with he | hm
        · exact he
        · exact absurd hm hr
      subst heq
      simp only [List.foldl_cons, ruleStep]
      rw [foldl_ruleStep_lookup_not_mem rest _ _ rule hr]
      exact alistLookup_dictInsert_self bd rule (rulePts rule)

lemma foldl_ruleStep_lookup_isSome (rules : List String) (rule : String)
    (h : rule ∈ rules) :
    (alistLookup (List.foldl ruleStep (([], 0) : List (String × ℚ) × ℚ)
      rules).1 rule).isSome = true := by
  rw [foldl_ruleStep_lookup_mem rules ([]) 0 rule h]
  rfl

/-- C9: a triggered-rule id outside the nine-entry catalog contributes the
default 5.0 points and gets its own breakdown entry: the loop writes
`breakdown[rule] = 5.0`, and the entry survives (with value 5.0 unless the id
collides with the later ML or penalty breakdown keys). -/
theorem unknown_rule_scores_default (result : DetectionResult)
    (uf : UserFeatures) (rule : String)
    (hmem : rule ∈ result.triggered_rules)
    (hunk : rule ∉ RULE_BASE_SCORES.map Prod.fst) :
    rulePts rule = 5
    ∧ (alistLookup (calculate_risk_score result uf).score_breakdown
        rule).isSome = true
    ∧ (rule ≠ "ML_ANOMALY" → rule ≠ "CONSECUTIVE_FAIL_PENALTY" →
        alistLookup (calculate_risk_score result uf).score_breakdown rule
          = some 5) := by
  have hpts : rulePts rule = 5 := by
    unfold rulePts
    exact alistGetD_default_of_not_mem _ _ _ hunk
  have hbase : alistLookup (List.foldl ruleStep
      (([], 0) : List (String × ℚ) × ℚ) result.triggered_rules).1 rule
      = some (rulePts rule) :=
    foldl_ruleStep_lookup_mem _ _ _ _ hmem
  by_cases hml : result.detection_method = "ml" ∨ result.detection_method = "both" <;>
    by_cases hp : 0 < min ((uf.consecutive_failures : ℚ) * 1) 10 <;>
    · refine ⟨hpts, ?_, fun hne1 hne2 => ?_⟩ <;>
        simp only [calculate_risk_score, hml, hp, if_true, if_false,
          ite_true, ite_false] <;>
        first
        | (rw [alistLookup_dictInsert_other _ _ _ _ (Ne.symm hne2),
             alistLookup_dictInsert_other _ _ _ _ (Ne.symm hne1), hbase, hpts])
        | (rw [alistLookup_dictInsert_other _ _ _ _ (Ne.symm hne2), hbase, hpts])
        | (rw [alistLookup_dictInsert_other _ _ _ _ (Ne.symm hne1), hbase, hpts])
        | (rw [hbase, hpts]; rfl)
        | (rw [hbase, hpts])
        | (apply alistLookup_dictInsert_isSome
           apply alistLookup_dictInsert_isSome
           rw [hbase]
           rfl)
        | (apply alistLookup_dictInsert_isSome
           rw [hbase]
           rfl)
        | (rw [hbase]; rfl)

/-- C9 witness: the unknown id "R99_UNKNOWN". -/
theorem unknown_rule_scores_default_witness :
    rulePts "R99_UNKNOWN" = 5
    ∧ (alistLookup (calculate_risk_score res9 ufSolo).score_breakdown
        "R99_UNKNOWN").isSome = true
    ∧ ("R99_UNKNOWN" ≠ "ML_ANOMALY" → "R99_UNKNOWN" ≠ "CONSECUTIVE_FAIL_PENALTY" →
        alistLookup (calculate_risk_score res9 ufSolo).score_breakdown
          "R99_UNKNOWN" = some 5) :=
  unknown_rule_scores_default res9 ufSolo "R99_UNKNOWN"
    (by simp [res9]) (by simp [RULE_BASE_SCORES])

/-- C10: an event whose `source_ip` is the empty string is excluded from the
distinct-IP set of `extract_user_features` whatever its region, and an event
whose `aws_region` is the empty string is excluded from the distinct-region
set whatever its IP: inserting the former anywhere in an account's partition
leaves `unique_ips` unchanged, inserting the latter leaves `unique_regions`
unchanged, and neither can tip the MULTIPLE_SOURCE_IPS (≥ 3 IPs) or
MULTI_REGION_ACTIVITY (≥ 2 regions) thresholds. -/
theorem empty_ip_region_never_counted (log2 : ℚ → ℚ) (arn : String)
    (l₁ l₂ : List CloudTrailEvent) (e e' : CloudTrailEvent)
    (hip : e.source_ip = "") (hrg : e'.aws_region = "") :
    (buildUserFeatures log2 arn (l₁ ++ e :: l₂)).unique_ips
      = (buildUserFeatures log2 arn (l₁ ++ l₂)).unique_ips
    ∧ (buildUserFeatures log2 arn (l₁ ++ e' :: l₂)).unique_regions
      = (buildUserFeatures log2 arn (l₁ ++ l₂)).unique_regions
    ∧ ("R04_MULTIPLE_SOURCE_IPS"
          ∈ RuleEngine.evaluate (buildUserFeatures log2 arn (l₁ ++ e :: l₂))
        ↔ "R04_MULTIPLE_SOURCE_IPS"
          ∈ RuleEngine.evaluate (buildUserFeatures log2 arn (l₁ ++ l₂)))
    ∧ ("R08_MULTI_REGION_ACTIVITY"
          ∈ RuleEngine.evaluate (buildUserFeatures log2 arn (l₁ ++ e' :: l₂))
        ↔ "R08_MULTI_REGION_ACTIVITY"
          ∈ RuleEngine.evaluate (buildUserFeatures log2 arn (l₁ ++ l₂))) := by
  have hfip : (l₁ ++ e :: l₂).filter (fun x => x.source_ip ≠ "")
      = (l₁ ++ l₂).filter (fun x => x.source_ip ≠ "") := by
    simp [List.filter_append, List.filter_cons, hip]
  have hfrg : (l₁ ++ e' :: l₂).filter (fun x => x.aws_region ≠ "")
      = (l₁ ++ l₂).filter (fun x => x.aws_region ≠ "") := by
    simp [List.filter_append, List.filter_cons, hrg]
  have hips : (buildUserFeatures log2 arn (l₁ ++ e :: l₂)).unique_ips
      = (buildUserFeatures log2 arn (l₁ ++ l₂)).unique_ips := by
    simp only [buildUserFeatures]
    rw [hfip]
  have hrgs : (buildUserFeatures log2 arn (l₁ ++ e' :: l₂)).unique_regions
      = (buildUserFeatures log2 arn (l₁ ++ l₂)).unique_regions := by
    simp only [buildUserFeatures]
    rw [hfrg]
  refine ⟨hips, hrgs, ?_, ?_⟩
  · rw [mem_evaluate_R04, mem_evaluate_R04, hips]
  · rw [mem_evaluate_R08, mem_evaluate_R08, hrgs]

/-- C10 witness: inserting a concrete empty-IP (real-region) event and a
concrete empty-region (real-IP) event. -/
theorem empty_ip_region_never_counted_witness :
    (buildUserFeatures (fun _ => 0) "arn:u" ([evF] ++ evEI :: [])).unique_ips
      = (buildUserFeatures (fun _ => 0) "arn:u" ([evF] ++ [])).unique_ips
    ∧ (buildUserFeatures (fun _ => 0) "arn:u" ([evF] ++ evER :: [])).unique_regions
      = (buildUserFeatures (fun _ => 0) "arn:u" ([evF] ++ [])).unique_regions
    ∧ ("R04_MULTIPLE_SOURCE_IPS"
          ∈ RuleEngine.evaluate
            (buildUserFeatures (fun _ => 0) "arn:u" ([evF] ++ evEI :: []))
        ↔ "R04_MULTIPLE_SOURCE_IPS"
          ∈ RuleEngine.evaluate
            (buildUserFeatures (fun _ => 0) "arn:u" ([evF] ++ [])))
    ∧ ("R08_MULTI_REGION_ACTIVITY"
          ∈ RuleEngine.evaluate
            (buildUserFeatures (fun _ => 0) "arn:u" ([evF] ++ evER :: []))
        ↔ "R08_MULTI_REGION_ACTIVITY"
          ∈ RuleEngine.evaluate
            (buildUserFeatures (fun _ => 0) "arn:u" ([evF] ++ []))) :=
  empty_ip_region_never_counted (fun _ => 0) "arn:u" [evF] [] evEI evER rfl rfl
